import Mathlib

/-!
Shallow embedding of the telcoin-network worker block builder
(`crates/execution/block-builder/src/block_builder.rs`), the worker block
validator (`crates/execution/block-validator/src/validator.rs`), the
execution-state adapters (`crates/consensus/node/src/execution_state.rs`)
and the reputation scores (`crates/types/src/primary/reputation.rs`).

256-bit hashes and addresses are modelled as `Nat`; the keccak header hash
and the transactions-root computation live in external crates, so the
builder and validator are parameterised over those functions
(`hash_slow`, `calc_tx_root`); every claim proved below holds for every
choice of these functions unless it instantiates them concretely.
Machine integers (`u64`, `usize`) cannot overflow on the values the code
handles (gas sums are bounded by the gas cap check before each addition),
so they are modelled as `Nat`.
-/

/-- A signed transaction, reduced to the observables the builder and
validator read: its hash, its declared gas limit (`tx.gas_limit()`) and
its encoded byte size (`tx.size()`). -/
structure TransactionSigned where
  tx_hash : Nat
  gas_limit : Nat
  size : Nat
deriving Repr, DecidableEq

/-- Sentinel value for `EMPTY_OMMER_ROOT_HASH` (keccak of the empty ommer
list); distinct from `B256::ZERO = 0`. -/
def EMPTY_OMMER_ROOT_HASH : Nat := 1

/-- Sentinel value for `EMPTY_WITHDRAWALS` (root of the empty withdrawals
list); distinct from `B256::ZERO = 0`. -/
def EMPTY_WITHDRAWALS : Nat := 2

/-- The execution header (`reth_primitives::Header`) fields read or
written by the builder and validator. -/
structure Header where
  parent_hash : Nat
  ommers_hash : Nat
  beneficiary : Nat
  state_root : Nat
  transactions_root : Nat
  receipts_root : Nat
  withdrawals_root : Option Nat
  logs_bloom : Nat
  difficulty : Nat
  number : Nat
  gas_limit : Nat
  gas_used : Nat
  timestamp : Nat
  mix_hash : Nat
  nonce : Nat
  base_fee_per_gas : Option Nat
  blob_gas_used : Option Nat
  excess_blob_gas : Option Nat
  parent_beacon_block_root : Option Nat
  extra_data : Nat
  requests_root : Option Nat
deriving Repr, DecidableEq

/-- `Header::is_timestamp_in_past(parent_timestamp)`: true when
`self.timestamp <= parent_timestamp`. -/
def Header.is_timestamp_in_past (h : Header) (parent_timestamp : Nat) : Bool :=
  h.timestamp ≤ parent_timestamp

/-- `Header::ommers_hash_is_empty()`: the ommers hash equals the hash of
the empty ommer list. -/
def Header.ommers_hash_is_empty (h : Header) : Bool :=
  h.ommers_hash == EMPTY_OMMER_ROOT_HASH

/-- A header together with its stored (sealed) hash. -/
structure SealedHeader where
  header : Header
  hash : Nat
deriving Repr, DecidableEq

/-- `Header::seal_slow()`: seal a header with its recomputed hash. -/
def Header.seal_slow (hash_slow : Header → Nat) (h : Header) : SealedHeader :=
  ⟨h, hash_slow h⟩

/-- `tn_types::WorkerBlock`: an ordered transaction list plus a sealed
header (`received_at` is metadata the validator never reads). -/
structure WorkerBlock where
  transactions : List TransactionSigned
  sealed_header : SealedHeader
  received_at : Option Nat
deriving Repr, DecidableEq

/-- `BlockValidationError` variants, with the payloads the validator
constructs at each return site. -/
inductive BlockValidationError where
  | CanonicalChain (block_hash : Nat)
  | BlockHash (expected peer_hash : Nat)
  | TransactionRootMismatch (expected peer_root : Nat)
  | ParentBlockNumberMismatch (parent_block_number block_number : Nat)
  | TimestampIsInPast (parent_timestamp timestamp : Nat)
  | InvalidGasLimit (expected received : Nat)
  | HeaderMaxGasExceedsGasLimit (total_possible_gas gas_limit : Nat)
  | CalculateMaxPossibleGas
  | HeaderGasUsedMismatch (expected received : Nat)
  | CalculateTransactionByteSize
  | HeaderTransactionBytesExceedsMax (total_bytes : Nat)
  | NonEmptyOmmersHash (v : Nat)
  | NonEmptyStateRoot (v : Nat)
  | NonEmptyReceiptsRoot (v : Nat)
  | NonEmptyWithdrawalsRoot (v : Option Nat)
  | NonEmptyLogsBloom (v : Nat)
  | NonEmptyMixHash (v : Nat)
  | NonZeroNonce (v : Nat)
  | NonZeroDifficulty (v : Nat)
  | NonEmptyBeaconRoot (v : Option Nat)
  | NonEmptyBlobGas (v : Option Nat)
  | NonEmptyExcessBlobGas (v : Option Nat)
  | NonEmptyRequestsRoot (v : Option Nat)
deriving Repr, DecidableEq

/-- The validator's configuration: the local chain (header lookup by
block hash, modelling `BlockchainProvider::header`), the byte cap and the
gas cap. -/
structure BlockValidator where
  chain : List (Nat × Header)
  max_tx_bytes : Nat
  max_tx_gas : Nat
deriving Repr

/-- `BlockchainProvider::header(&hash)`: look a header up by block hash. -/
def header_lookup (chain : List (Nat × Header)) (h : Nat) : Option Header :=
  (chain.find? (fun p => p.1 == h)).map (fun p => p.2)

/-- `Iterator::reduce(|total, x| total + x)`: `none` on an empty list,
otherwise the sum. -/
def reduceSum : List Nat → Option Nat
  | [] => none
  | x :: xs => some (xs.foldl (· + ·) x)

/-- `BlockValidator::validate_block_hash`: the stored hash must equal the
recomputed `hash_slow` of the header fields. -/
def validate_block_hash (hash_slow : Header → Nat) (header : SealedHeader) :
    Except BlockValidationError Unit :=
  let expected := hash_slow header.header
  let peer_hash := header.hash
  if expected ≠ peer_hash then
    .error (.BlockHash expected peer_hash)
  else
    .ok ()

/-- `BlockValidator::validate_transactions_root`: the stored
transactions root must equal the recomputed root. -/
def validate_transactions_root (calc_tx_root : List TransactionSigned → Nat)
    (transactions : List TransactionSigned) (header : SealedHeader) :
    Except BlockValidationError Unit :=
  let expected := calc_tx_root transactions
  let peer_root := header.header.transactions_root
  if expected ≠ peer_root then
    .error (.TransactionRootMismatch expected peer_root)
  else
    .ok ()

/-- `BlockValidator::validate_against_parent_hash_number`:
`parent.number + 1` must equal the block number. -/
def validate_against_parent_hash_number (header : Header) (parent : SealedHeader) :
    Except BlockValidationError Unit :=
  if parent.header.number + 1 ≠ header.number then
    .error (.ParentBlockNumberMismatch parent.header.number header.number)
  else
    .ok ()

/-- `BlockValidator::validate_against_parent_timestamp`: the block
timestamp must not be in the past relative to the parent. -/
def validate_against_parent_timestamp (header : Header) (parent : Header) :
    Except BlockValidationError Unit :=
  if header.is_timestamp_in_past parent.timestamp then
    .error (.TimestampIsInPast parent.timestamp header.timestamp)
  else
    .ok ()

/-- `BlockValidator::validate_block_gas`: the declared gas limit must
equal the configured cap, `gas_used` must be strictly below it, and the
per-transaction gas limits must be non-empty and sum to `gas_used`. -/
def validate_block_gas (max_tx_gas : Nat) (header : Header)
    (transactions : List TransactionSigned) : Except BlockValidationError Unit :=
  if header.gas_limit ≠ max_tx_gas then
    .error (.InvalidGasLimit max_tx_gas header.gas_limit)
  else if header.gas_used ≥ header.gas_limit then
    .error (.HeaderMaxGasExceedsGasLimit header.gas_used header.gas_limit)
  else
    match reduceSum (transactions.map (fun tx => tx.gas_limit)) with
    | none => .error .CalculateMaxPossibleGas
    | some max_possible_gas =>
      if header.gas_used ≠ max_possible_gas then
        .error (.HeaderGasUsedMismatch max_possible_gas header.gas_used)
      else
        .ok ()

/-- `BlockValidator::validate_block_size_bytes`: the per-transaction
encoded sizes must be non-empty and their sum must not exceed the byte
cap. -/
def validate_block_size_bytes (max_tx_bytes : Nat)
    (transactions : List TransactionSigned) : Except BlockValidationError Unit :=
  match reduceSum (transactions.map (fun tx => tx.size)) with
  | none => .error .CalculateTransactionByteSize
  | some total_bytes =>
    if total_bytes > max_tx_bytes then
      .error (.HeaderTransactionBytesExceedsMax total_bytes)
    else
      .ok ()

/-- `BlockValidator::validate_basefee`: currently a no-op. -/
def validate_basefee : Except BlockValidationError Unit := .ok ()

/-- `BlockValidator::validate_empty_values`: every execution-irrelevant
header field must hold its canonical empty/zero sentinel. -/
def validate_empty_values (header : Header) : Except BlockValidationError Unit :=
  if ¬ header.ommers_hash_is_empty then
    .error (.NonEmptyOmmersHash header.ommers_hash)
  else if header.state_root ≠ 0 then
    .error (.NonEmptyStateRoot header.state_root)
  else if header.receipts_root ≠ 0 then
    .error (.NonEmptyReceiptsRoot header.receipts_root)
  else if header.withdrawals_root ≠ some EMPTY_WITHDRAWALS then
    .error (.NonEmptyWithdrawalsRoot header.withdrawals_root)
  else if header.logs_bloom ≠ 0 then
    .error (.NonEmptyLogsBloom header.logs_bloom)
  else if header.mix_hash ≠ 0 then
    .error (.NonEmptyMixHash header.mix_hash)
  else if header.nonce ≠ 0 then
    .error (.NonZeroNonce header.nonce)
  else if header.difficulty ≠ 0 then
    .error (.NonZeroDifficulty header.difficulty)
  else if header.parent_beacon_block_root.isSome then
    .error (.NonEmptyBeaconRoot header.parent_beacon_block_root)
  else if header.blob_gas_used.isSome then
    .error (.NonEmptyBlobGas header.blob_gas_used)
  else if header.excess_blob_gas.isSome then
    .error (.NonEmptyExcessBlobGas header.excess_blob_gas)
  else if header.requests_root.isSome then
    .error (.NonEmptyRequestsRoot header.requests_root)
  else
    .ok ()

/-- Rust's `?` operator on a `Result<(), E>` statement: early-return the
error, otherwise continue with the rest of the function body. -/
def seqE (a : Except BlockValidationError Unit)
    (rest : Except BlockValidationError Unit) : Except BlockValidationError Unit :=
  match a with
  | .error e => .error e
  | .ok _ => rest

/-- `BlockValidator::validate_block` (`validator.rs` lines 55–101): the
parent header is retrieved first (`CanonicalChain` when absent), then the
hash, transactions-root, parent-number, timestamp, gas, byte-size,
basefee and empty-value checks run in order, short-circuiting on the
first error. -/
def validate_block (hash_slow : Header → Nat)
    (calc_tx_root : List TransactionSigned → Nat) (v : BlockValidator)
    (block : WorkerBlock) : Except BlockValidationError Unit :=
  let transactions := block.transactions
  let sealed_header := block.sealed_header
  match header_lookup v.chain sealed_header.header.parent_hash with
  | none => .error (.CanonicalChain sealed_header.header.parent_hash)
  | some p =>
    let parent : SealedHeader := ⟨p, sealed_header.header.parent_hash⟩
    seqE (validate_block_hash hash_slow sealed_header) <|
    seqE (validate_transactions_root calc_tx_root transactions sealed_header) <|
    seqE (validate_against_parent_hash_number sealed_header.header parent) <|
    seqE (validate_against_parent_timestamp sealed_header.header parent.header) <|
    seqE (validate_block_gas v.max_tx_gas sealed_header.header transactions) <|
    seqE (validate_block_size_bytes v.max_tx_bytes transactions) <|
    seqE validate_basefee <|
    validate_empty_values sealed_header.header

/-- The output of `build_worker_block`
(`block_builder.rs` lines 19–35). -/
structure BlockBuilderOutput where
  worker_block : WorkerBlock
  mined_transactions : List Nat
deriving Repr, DecidableEq

/-- The accumulator of the builder's transaction loop
(`block_builder.rs` lines 77–122): running byte and gas totals, the
included transactions, their hashes, and the transactions passed to
`best_txs.mark_invalid`. -/
structure BuildLoopState where
  total_bytes_size : Nat
  total_possible_gas : Nat
  transactions : List TransactionSigned
  mined_transactions : List Nat
  marked_invalid : List TransactionSigned
deriving Repr, DecidableEq

/-- The empty accumulator the builder starts from. -/
def BuildLoopState.init : BuildLoopState := ⟨0, 0, [], [], []⟩

/-- The builder's `while let Some(pool_tx) = best_txs.next()` loop over
the pool's best-ordered transactions: a transaction that would push the
gas total over `gas_limit` or the byte total over `max_size` is marked
invalid (which, inside the pool iterator, also drops its dependents) and
skipped; otherwise it is appended and both totals grow. -/
def build_loop (gas_limit max_size : Nat) :
    List TransactionSigned → BuildLoopState → BuildLoopState
  | [], s => s
  | pool_tx :: rest, s =>
    if s.total_possible_gas + pool_tx.gas_limit > gas_limit then
      build_loop gas_limit max_size rest
        { s with marked_invalid := s.marked_invalid ++ [pool_tx] }
    else if s.total_bytes_size + pool_tx.size > max_size then
      build_loop gas_limit max_size rest
        { s with marked_invalid := s.marked_invalid ++ [pool_tx] }
    else
      build_loop gas_limit max_size rest
        { s with
          total_possible_gas := s.total_possible_gas + pool_tx.gas_limit
          total_bytes_size := s.total_bytes_size + pool_tx.size
          mined_transactions := s.mined_transactions ++ [pool_tx.tx_hash]
          transactions := s.transactions ++ [pool_tx] }

/-- `build_worker_block` (`block_builder.rs` lines 48–174): run the loop
over the pool's best transactions off the latest canonical tip, bump the
timestamp by one second when it collides with the parent's, build the
header with sentinel roots and seal it. `best_txs` is the sequence the
pool's `best_transactions` iterator would yield (dependents of an
invalidated transaction already removed by the iterator, which lives in
the pool crate); `now` is the wall clock read. -/
def build_worker_block (hash_slow : Header → Nat)
    (calc_tx_root : List TransactionSigned → Nat) (best_txs : List TransactionSigned)
    (new_tip : SealedHeader) (pending_block_base_fee : Nat)
    (gas_limit max_size beneficiary now : Nat) : BlockBuilderOutput :=
  let block_number := new_tip.header.number + 1
  let parent_hash := new_tip.hash
  let s := build_loop gas_limit max_size best_txs BuildLoopState.init
  let transactions_root := calc_tx_root s.transactions
  let timestamp := if now = new_tip.header.timestamp
    then new_tip.header.timestamp + 1 else now
  let header : Header :=
    { parent_hash := parent_hash
      ommers_hash := EMPTY_OMMER_ROOT_HASH
      beneficiary := beneficiary
      state_root := 0
      transactions_root := transactions_root
      receipts_root := 0
      withdrawals_root := some EMPTY_WITHDRAWALS
      logs_bloom := 0
      timestamp := timestamp
      mix_hash := 0
      nonce := 0
      base_fee_per_gas := some pending_block_base_fee
      number := block_number
      gas_limit := gas_limit
      difficulty := 0
      gas_used := s.total_possible_gas
      extra_data := 0
      parent_beacon_block_root := none
      blob_gas_used := none
      excess_blob_gas := none
      requests_root := none }
  { worker_block :=
      { transactions := s.transactions
        sealed_header := header.seal_slow hash_slow
        received_at := none }
    mined_transactions := s.mined_transactions }

/-- `ConsensusOutput` as seen by the execution state: the committed
sub-dag's sequence number (the payload batches are forwarded opaquely). -/
structure ConsensusOutput where
  sub_dag_index : Nat
deriving Repr, DecidableEq

/-- `LatticeExecutionState` (`execution_state.rs` lines 49–57): holds a
handle to the network adapter, modelled opaquely. -/
structure LatticeExecutionState where
  adapter : Unit
deriving Repr, DecidableEq

/-- `LatticeExecutionState::handle_consensus_output`: forwards the output
to the adapter through `&self`; no state of `self` changes. -/
def LatticeExecutionState.handle_consensus_output (s : LatticeExecutionState)
    (_consensus_output : ConsensusOutput) : LatticeExecutionState :=
  s

/-- `LatticeExecutionState::last_executed_sub_dag_index`
(`execution_state.rs` lines 66–71): returns the constant `0` (the db
query is an unimplemented TODO). -/
def LatticeExecutionState.last_executed_sub_dag_index
    (_s : LatticeExecutionState) : Nat :=
  0

/-- `SimpleExecutionState::last_executed_sub_dag_index`
(`execution_state.rs` lines 41–43): returns the constant `0`. -/
def SimpleExecutionState.last_executed_sub_dag_index : Nat := 0

/-- The comparator of `ReputationScores::authorities_by_score_desc`
(`reputation.rs` lines 56–65) as a `mergeSort` predicate: `a` sorts no
later than `b` when `a`'s score is higher, or the scores tie and `a`'s
authority identifier is no smaller (descending in both components; a
pair is `(authority, score)`). -/
def score_le (a b : Nat × Nat) : Bool :=
  b.2 < a.2 || (b.2 == a.2 && b.1 ≤ a.1)

/-- `ReputationScores::authorities_by_score_desc`: collect the score
map's `(authority, score)` entries — given here in the hash map's
arbitrary iteration order — and sort by score descending, ties broken by
authority identifier descending. -/
def authorities_by_score_desc (scores_per_authority : List (Nat × Nat)) :
    List (Nat × Nat) :=
  scores_per_authority.mergeSort score_le

/-- Total declared gas of a transaction list. -/
def sumGas (l : List TransactionSigned) : Nat :=
  (l.map (fun tx => tx.gas_limit)).sum

/-- Total encoded byte size of a transaction list. -/
def sumSize (l : List TransactionSigned) : Nat :=
  (l.map (fun tx => tx.size)).sum

lemma foldl_add_eq (x : Nat) (xs : List Nat) : xs.foldl (· + ·) x = x + xs.sum := by
  induction xs generalizing x with
  | nil => simp
  | cons y ys ih => simp only [List.foldl_cons, ih, List.sum_cons]; omega

lemma reduceSum_eq (l : List Nat) (h : l ≠ []) : reduceSum l = some l.sum := by
  cases l with
  | nil => exact absurd rfl h
  | cons x xs => simp [reduceSum, foldl_add_eq]

lemma seqE_eq_ok {a r : Except BlockValidationError Unit} :
    seqE a r = .ok () ↔ a = .ok () ∧ r = .ok () := by
  cases a with
  | error e => simp [seqE]
  | ok u => cases u; simp [seqE]

lemma build_loop_totals (g m : Nat) (pool : List TransactionSigned)
    (s : BuildLoopState)
    (hg : s.total_possible_gas = sumGas s.transactions)
    (hb : s.total_bytes_size = sumSize s.transactions)
    (hm : s.mined_transactions = s.transactions.map (fun tx => tx.tx_hash)) :
    (build_loop g m pool s).total_possible_gas
        = sumGas (build_loop g m pool s).transactions ∧
    (build_loop g m pool s).total_bytes_size
        = sumSize (build_loop g m pool s).transactions ∧
    (build_loop g m pool s).mined_transactions
        = (build_loop g m pool s).transactions.map (fun tx => tx.tx_hash) := by
  induction pool generalizing s with
  | nil => exact ⟨hg, hb, hm⟩
  | cons tx rest ih =>
    by_cases h1 : s.total_possible_gas + tx.gas_limit > g
    · simp only [build_loop, if_pos h1]
      exact ih _ hg hb hm
    · by_cases h2 : s.total_bytes_size + tx.size > m
      · simp only [build_loop, if_neg h1, if_pos h2]
        exact ih _ hg hb hm
      · simp only [build_loop, if_neg h1, if_neg h2]
        refine ih _ ?_ ?_ ?_
        · simp [sumGas, hg]
        · simp [sumSize, hb]
        · simp [hm]

lemma build_loop_gas_le (g m : Nat) (pool : List TransactionSigned)
    (s : BuildLoopState) (h : s.total_possible_gas ≤ g) :
    (build_loop g m pool s).total_possible_gas ≤ g := by
  induction pool generalizing s with
  | nil => exact h
  | cons tx rest ih =>
    by_cases h1 : s.total_possible_gas + tx.gas_limit > g
    · simp only [build_loop, if_pos h1]
      exact ih _ h
    · by_cases h2 : s.total_bytes_size + tx.size > m
      · simp only [build_loop, if_neg h1, if_pos h2]
        exact ih _ h
      · simp only [build_loop, if_neg h1, if_neg h2]
        exact ih _ (by simp only [not_lt] at h1; simpa using h1)

lemma build_loop_bytes_le (g m : Nat) (pool : List TransactionSigned)
    (s : BuildLoopState) (h : s.total_bytes_size ≤ m) :
    (build_loop g m pool s).total_bytes_size ≤ m := by
  induction pool generalizing s with
  | nil => exact h
  | cons tx rest ih =>
    by_cases h1 : s.total_possible_gas + tx.gas_limit > g
    · simp only [build_loop, if_pos h1]
      exact ih _ h
    · by_cases h2 : s.total_bytes_size + tx.size > m
      · simp only [build_loop, if_neg h1, if_pos h2]
        exact ih _ h
      · simp only [build_loop, if_neg h1, if_neg h2]
        exact ih _ (by simp only [not_lt] at h2; simpa using h2)

/-- C6: `build_worker_block` never fails: for every pool contents it
returns a sealed `WorkerBlock` (stored hash = recomputed hash) plus the
consumed transaction hashes, the included transactions satisfy
`sumGas ≤ gas cap` and `sumSize ≤ byte cap`, and the empty pool yields an
empty block. -/
theorem C6_build_worker_block_never_fails (hash_slow : Header → Nat)
    (calc_tx_root : List TransactionSigned → Nat)
    (best_txs : List TransactionSigned) (new_tip : SealedHeader)
    (base_fee gas_limit max_size beneficiary now : Nat) :
    sumGas (build_worker_block hash_slow calc_tx_root best_txs new_tip base_fee
        gas_limit max_size beneficiary now).worker_block.transactions ≤ gas_limit ∧
    sumSize (build_worker_block hash_slow calc_tx_root best_txs new_tip base_fee
        gas_limit max_size beneficiary now).worker_block.transactions ≤ max_size ∧
    (build_worker_block hash_slow calc_tx_root best_txs new_tip base_fee
        gas_limit max_size beneficiary now).mined_transactions
      = ((build_worker_block hash_slow calc_tx_root best_txs new_tip base_fee
        gas_limit max_size beneficiary now).worker_block.transactions.map
          (fun tx => tx.tx_hash)) ∧
    (build_worker_block hash_slow calc_tx_root best_txs new_tip base_fee
        gas_limit max_size beneficiary now).worker_block.sealed_header.hash
      = hash_slow (build_worker_block hash_slow calc_tx_root best_txs new_tip
        base_fee gas_limit max_size beneficiary now).worker_block.sealed_header.header ∧
    (build_worker_block hash_slow calc_tx_root [] new_tip base_fee
        gas_limit max_size beneficiary now).worker_block.transactions = [] := by
  have htot := build_loop_totals gas_limit max_size best_txs BuildLoopState.init
    rfl rfl rfl
  have hgle := build_loop_gas_le gas_limit max_size best_txs BuildLoopState.init
    (Nat.zero_le _)
  have hble := build_loop_bytes_le gas_limit max_size best_txs BuildLoopState.init
    (Nat.zero_le _)
  refine ⟨?_, ?_, ?_, rfl, rfl⟩
  · simpa [build_worker_block, htot.1] using htot.1 ▸ hgle
  · simpa [build_worker_block, htot.2.1] using htot.2.1 ▸ hble
  · simpa [build_worker_block] using htot.2.2

/-- C7: the built block's header timestamp is the wall clock, except that
a collision with the parent's timestamp is bumped to parent + 1 second,
so it never equals the parent's timestamp. -/
theorem C7_timestamp_never_equals_parent (hash_slow : Header → Nat)
    (calc_tx_root : List TransactionSigned → Nat)
    (best_txs : List TransactionSigned) (new_tip : SealedHeader)
    (base_fee gas_limit max_size beneficiary now : Nat) :
    (now = new_tip.header.timestamp →
      (build_worker_block hash_slow calc_tx_root best_txs new_tip base_fee
        gas_limit max_size beneficiary now).worker_block.sealed_header.header.timestamp
      = new_tip.header.timestamp + 1) ∧
    (now ≠ new_tip.header.timestamp →
      (build_worker_block hash_slow calc_tx_root best_txs new_tip base_fee
        gas_limit max_size beneficiary now).worker_block.sealed_header.header.timestamp
      = now) ∧
    (build_worker_block hash_slow calc_tx_root best_txs new_tip base_fee
        gas_limit max_size beneficiary now).worker_block.sealed_header.header.timestamp
      ≠ new_tip.header.timestamp := by
  by_cases h : now = new_tip.header.timestamp
  · refine ⟨fun _ => ?_, fun hne => absurd h hne, ?_⟩
    · simp [build_worker_block, Header.seal_slow, h]
    · simp [build_worker_block, Header.seal_slow, h]
  · refine ⟨fun he => absurd he h, fun _ => ?_, ?_⟩
    · simp [build_worker_block, Header.seal_slow, h]
    · simp [build_worker_block, Header.seal_slow, h]

/-- A concrete parent header used by the closed examples below: block
number 0, timestamp 100, all sentinel fields canonical. -/
def exParentHeader : Header where
  parent_hash := 0
  ommers_hash := EMPTY_OMMER_ROOT_HASH
  beneficiary := 0
  state_root := 0
  transactions_root := 0
  receipts_root := 0
  withdrawals_root := some EMPTY_WITHDRAWALS
  logs_bloom := 0
  difficulty := 0
  number := 0
  gas_limit := 30
  gas_used := 0
  timestamp := 100
  mix_hash := 0
  nonce := 0
  base_fee_per_gas := some 7
  blob_gas_used := none
  excess_blob_gas := none
  parent_beacon_block_root := none
  extra_data := 0
  requests_root := none

/-- The concrete parent sealed under stored hash `99`. -/
def exParentTip : SealedHeader := ⟨exParentHeader, 99⟩

/-- A one-entry local chain resolving hash `99` to the parent header. -/
def exChain : List (Nat × Header) := [(99, exParentHeader)]

/-- C7 witness: at a concrete colliding wall clock (now = parent's
timestamp = 100) the built timestamp is bumped to parent + 1. -/
theorem C7_timestamp_never_equals_parent_witness :
    ((100 : Nat) = exParentTip.header.timestamp →
      (build_worker_block (fun _ => 0) (fun _ => 0) [] exParentTip 7 30 50 3
        100).worker_block.sealed_header.header.timestamp = 100 + 1) ∧
    (100 : Nat) = exParentTip.header.timestamp := by
  refine ⟨fun h => ?_, by decide⟩
  exact (C7_timestamp_never_equals_parent (fun _ => 0) (fun _ => 0) []
    exParentTip 7 30 50 3 100).1 h

lemma build_loop_count_partition (g m : Nat) (pool : List TransactionSigned)
    (s : BuildLoopState) (tx : TransactionSigned) :
    (build_loop g m pool s).transactions.count tx
      + (build_loop g m pool s).marked_invalid.count tx
    = s.transactions.count tx + s.marked_invalid.count tx + pool.count tx := by
  induction pool generalizing s with
  | nil => simp [build_loop]
  | cons t rest ih =>
    by_cases h1 : s.total_possible_gas + t.gas_limit > g
    · simp only [build_loop, if_pos h1]
      rw [ih]
      simp only [List.count_append, List.count_cons, List.count_nil]
      by_cases ht : t = tx
      all_goals simp [ht]
      all_goals omega
    · by_cases h2 : s.total_bytes_size + t.size > m
      · simp only [build_loop, if_neg h1, if_pos h2]
        rw [ih]
        simp only [List.count_append, List.count_cons, List.count_nil]
        by_cases ht : t = tx
        all_goals simp [ht]
        all_goals omega
      · simp only [build_loop, if_neg h1, if_neg h2]
        rw [ih]
        simp only [List.count_append, List.count_cons, List.count_nil]
        by_cases ht : t = tx
        all_goals simp [ht]
        all_goals omega

lemma build_loop_gas_too_big (g m : Nat) (pool : List TransactionSigned)
    (s : BuildLoopState) (tx : TransactionSigned) (hgt : g < tx.gas_limit) :
    (build_loop g m pool s).transactions.count tx = s.transactions.count tx ∧
    (build_loop g m pool s).marked_invalid.count tx
      = s.marked_invalid.count tx + pool.count tx := by
  induction pool generalizing s with
  | nil => simp [build_loop]
  | cons t rest ih =>
    by_cases h1 : s.total_possible_gas + t.gas_limit > g
    · simp only [build_loop, if_pos h1]
      rcases ih { s with marked_invalid := s.marked_invalid ++ [t] } with ⟨ha, hb⟩
      refine ⟨ha, ?_⟩
      rw [hb]
      simp only [List.count_append, List.count_cons, List.count_nil]
      by_cases ht : t = tx
      all_goals simp [ht]
      all_goals omega
    · have htne : t ≠ tx := by
        intro he
        subst he
        simp only [not_lt] at h1
        omega
      by_cases h2 : s.total_bytes_size + t.size > m
      · simp only [build_loop, if_neg h1, if_pos h2]
        rcases ih { s with marked_invalid := s.marked_invalid ++ [t] } with ⟨ha, hb⟩
        refine ⟨ha, ?_⟩
        rw [hb]
        simp only [List.count_append, List.count_cons, List.count_nil]
        simp [htne]
      · simp only [build_loop, if_neg h1, if_neg h2]
        rcases ih { s with
          total_possible_gas := s.total_possible_gas + t.gas_limit
          total_bytes_size := s.total_bytes_size + t.size
          mined_transactions := s.mined_transactions ++ [t.tx_hash]
          transactions := s.transactions ++ [t] } with ⟨ha, hb⟩
        constructor
        · rw [ha]
          simp [List.count_append, List.count_cons, htne]
        · rw [hb]
          simp [List.count_cons, htne]

/-- C5 counterexample: with gas cap 10 and byte cap 100, the second best
transaction (gas limit 6, size 1) is individually within both caps, yet
the builder loop marks it invalid because the accumulated gas (5) plus
its gas limit exceeds the cap — refuting "marked invalid exactly when
the transaction individually would exceed the configured caps". -/
theorem C5_marked_invalid_counterexample :
    (build_loop 10 100 [⟨1, 5, 1⟩, ⟨2, 6, 1⟩]
        BuildLoopState.init).marked_invalid = [⟨2, 6, 1⟩] ∧
    (⟨2, 6, 1⟩ : TransactionSigned).gas_limit ≤ 10 ∧
    (⟨2, 6, 1⟩ : TransactionSigned).size ≤ 100 := by
  decide

/-- C5 (amended): each yielded transaction is either included or marked
invalid — the two output multisets partition the yielded sequence — and a
transaction whose declared gas limit alone exceeds the gas cap is never
included in the built block and is marked invalid once per yield (hence
exactly once when the iterator yields it once). -/
theorem C5_gas_exceeding_tx_never_included (g m : Nat)
    (pool : List TransactionSigned) (tx : TransactionSigned) :
    ((build_loop g m pool BuildLoopState.init).transactions.count tx
      + (build_loop g m pool BuildLoopState.init).marked_invalid.count tx
      = pool.count tx) ∧
    (g < tx.gas_limit →
      tx ∉ (build_loop g m pool BuildLoopState.init).transactions ∧
      (build_loop g m pool BuildLoopState.init).marked_invalid.count tx
        = pool.count tx) := by
  constructor
  · simpa [BuildLoopState.init] using
      build_loop_count_partition g m pool BuildLoopState.init tx
  · intro hgt
    rcases build_loop_gas_too_big g m pool BuildLoopState.init tx hgt with ⟨ha, hb⟩
    constructor
    · rw [← List.count_eq_zero]
      simpa [BuildLoopState.init] using ha
    · simpa [BuildLoopState.init] using hb

/-- C5 witness: with gas cap 10, the transaction with declared gas limit
11 is yielded once, never included, and marked invalid exactly once. -/
theorem C5_gas_exceeding_tx_never_included_witness :
    (10 : Nat) < (⟨1, 11, 1⟩ : TransactionSigned).gas_limit ∧
    ((⟨1, 11, 1⟩ : TransactionSigned) ∉
      (build_loop 10 100 [⟨1, 11, 1⟩] BuildLoopState.init).transactions ∧
    (build_loop 10 100 [⟨1, 11, 1⟩]
        BuildLoopState.init).marked_invalid.count ⟨1, 11, 1⟩
      = [(⟨1, 11, 1⟩ : TransactionSigned)].count ⟨1, 11, 1⟩) :=
  ⟨by decide,
    (C5_gas_exceeding_tx_never_included 10 100 [⟨1, 11, 1⟩] ⟨1, 11, 1⟩).2
      (by decide)⟩

lemma validate_block_gas_nil (max_tx_gas : Nat) (header : Header) :
    validate_block_gas max_tx_gas header [] ≠ .ok () := by
  unfold validate_block_gas
  split
  · simp
  · split
    · simp
    · simp [reduceSum]

/-- C9: a `WorkerBlock` with an empty transaction list never passes
`validate_block`: the gas fold over zero transactions yields no value
(`CalculateMaxPossibleGas` once the gas check is reached with a matching
gas limit and in-range gas used), the byte-size fold likewise fails with
`CalculateTransactionByteSize`, so an empty block — which the builder can
produce — is always rejected. -/
theorem C9_empty_block_always_rejected (hash_slow : Header → Nat)
    (calc_tx_root : List TransactionSigned → Nat) (v : BlockValidator)
    (block : WorkerBlock) (hempty : block.transactions = []) :
    validate_block hash_slow calc_tx_root v block ≠ .ok () ∧
    validate_block_size_bytes v.max_tx_bytes block.transactions
      = .error .CalculateTransactionByteSize ∧
    (block.sealed_header.header.gas_limit = v.max_tx_gas →
      block.sealed_header.header.gas_used < block.sealed_header.header.gas_limit →
      validate_block_gas v.max_tx_gas block.sealed_header.header block.transactions
        = .error .CalculateMaxPossibleGas) := by
  refine ⟨?_, ?_, ?_⟩
  · intro hok
    rcases hl : header_lookup v.chain block.sealed_header.header.parent_hash with
      _ | p
    · simp [validate_block, hl] at hok
    · simp only [validate_block, hl, seqE_eq_ok] at hok
      exact validate_block_gas_nil v.max_tx_gas block.sealed_header.header
        (hempty ▸ hok.2.2.2.2.1)
  · simp [validate_block_size_bytes, hempty, reduceSum]
  · intro hlim hlt
    simp [validate_block_gas, hempty, reduceSum, hlim, Nat.not_le.mpr hlt]
    omega

/-- C9 witness: the concrete empty block off the example parent is
rejected by the concrete validator. -/
theorem C9_empty_block_always_rejected_witness :
    validate_block (fun _ => 0) (fun _ => 0) ⟨exChain, 50, 30⟩
      ⟨[], ⟨exParentHeader, 0⟩, none⟩ ≠ .ok () :=
  (C9_empty_block_always_rejected (fun _ => 0) (fun _ => 0) ⟨exChain, 50, 30⟩
    ⟨[], ⟨exParentHeader, 0⟩, none⟩ rfl).1

/-- C8: `validate_block_gas` additionally requires
`gas_used < gas_limit`, returning `HeaderMaxGasExceedsGasLimit` whenever
`gas_used ≥ gas_limit`; consequently a block whose transactions' declared
gas limits sum exactly to the configured cap (with `gas_used` equal to
that sum, as the builder sets it) is rejected. -/
theorem C8_gas_used_strictly_below_limit (max_tx_gas : Nat) (header : Header)
    (transactions : List TransactionSigned)
    (hlim : header.gas_limit = max_tx_gas) :
    (header.gas_limit ≤ header.gas_used →
      validate_block_gas max_tx_gas header transactions
        = .error (.HeaderMaxGasExceedsGasLimit header.gas_used header.gas_limit)) ∧
    (header.gas_used = sumGas transactions → sumGas transactions = max_tx_gas →
      validate_block_gas max_tx_gas header transactions
        = .error (.HeaderMaxGasExceedsGasLimit max_tx_gas max_tx_gas)) := by
  constructor
  · intro hge
    simp [validate_block_gas, hlim, ge_iff_le, hlim ▸ hge]
  · intro hused hsum
    have hge : header.gas_limit ≤ header.gas_used := by omega
    have h1 : validate_block_gas max_tx_gas header transactions
        = .error (.HeaderMaxGasExceedsGasLimit header.gas_used header.gas_limit) := by
      simp [validate_block_gas, hlim, ge_iff_le, hlim ▸ hge]
    rw [h1, hlim, hused, hsum]

/-- C8 witness: a header with gas limit 10 and gas used 10 over a single
transaction of declared gas 10 (summing exactly to the cap) is rejected
with `HeaderMaxGasExceedsGasLimit`. -/
theorem C8_gas_used_strictly_below_limit_witness :
    validate_block_gas 10
      { exParentHeader with gas_limit := 10, gas_used := 10 } [⟨1, 10, 1⟩]
      = .error (.HeaderMaxGasExceedsGasLimit 10 10) :=
  (C8_gas_used_strictly_below_limit 10
    { exParentHeader with gas_limit := 10, gas_used := 10 } [⟨1, 10, 1⟩]
    rfl).2 rfl (by decide)

lemma validate_block_gas_spec (max_tx_gas : Nat) (header : Header)
    (transactions : List TransactionSigned)
    (hlim : header.gas_limit = max_tx_gas)
    (hlt : header.gas_used < header.gas_limit) (hne : transactions ≠ []) :
    validate_block_gas max_tx_gas header transactions =
      if header.gas_used = sumGas transactions then .ok ()
      else .error (.HeaderGasUsedMismatch (sumGas transactions)
        header.gas_used) := by
  have hmap : transactions.map (fun tx => tx.gas_limit) ≠ [] := by
    simpa using hne
  unfold validate_block_gas
  rw [if_neg (by simp [hlim]), if_neg (Nat.not_le.mpr hlt),
    reduceSum_eq _ hmap]
  by_cases h : header.gas_used = sumGas transactions
  · simp [h, sumGas]
  · simp only [sumGas] at h
    simp [h, sumGas]

lemma validate_block_size_bytes_spec (max_tx_bytes : Nat)
    (transactions : List TransactionSigned) (hne : transactions ≠ [])
    (hle : sumSize transactions ≤ max_tx_bytes) :
    validate_block_size_bytes max_tx_bytes transactions = .ok () := by
  have hmap : transactions.map (fun tx => tx.size) ≠ [] := by
    simpa using hne
  unfold validate_block_size_bytes
  rw [reduceSum_eq _ hmap]
  simp only [sumSize] at hle
  simp [Nat.not_lt.mpr hle]

lemma validate_block_eq_of_checks (hash_slow : Header → Nat)
    (calc_tx_root : List TransactionSigned → Nat) (v : BlockValidator)
    (block : WorkerBlock) (p : Header)
    (hp : header_lookup v.chain block.sealed_header.header.parent_hash = some p)
    (hhash : hash_slow block.sealed_header.header = block.sealed_header.hash)
    (hroot : calc_tx_root block.transactions
      = block.sealed_header.header.transactions_root)
    (hnum : p.number + 1 = block.sealed_header.header.number)
    (hts : p.timestamp < block.sealed_header.header.timestamp) :
    validate_block hash_slow calc_tx_root v block
      = seqE (validate_block_gas v.max_tx_gas block.sealed_header.header
          block.transactions)
        (seqE (validate_block_size_bytes v.max_tx_bytes block.transactions)
          (seqE validate_basefee
            (validate_empty_values block.sealed_header.header))) := by
  simp only [validate_block, hp]
  simp [validate_block_hash, hhash, validate_transactions_root, hroot,
    validate_against_parent_hash_number, hnum,
    validate_against_parent_timestamp, Header.is_timestamp_in_past,
    Nat.not_le.mpr hts, seqE]

/-- C3 counterexample: a block whose stored hash does not match the
recomputed hash and whose parent hash resolves to no local header is
rejected with `CanonicalChain`, not with the `BlockHash` mismatch the
claim requires: the parent lookup happens before the hash check. -/
theorem C3_order_counterexample :
    validate_block (fun _ => 0) (fun _ => 5) ⟨[], 50, 30⟩
      ⟨[], ⟨{ exParentHeader with parent_hash := 7 }, 1⟩, none⟩
      = .error (.CanonicalChain 7) ∧
    validate_block_hash (fun _ => 0)
      ⟨{ exParentHeader with parent_hash := 7 }, 1⟩
      = .error (.BlockHash 0 1) ∧
    header_lookup ([] : List (Nat × Header)) 7 = none :=
  ⟨rfl, rfl, rfl⟩

/-- C3 (amended): `validate_block` resolves the parent hash first — a
block whose parent hash resolves to no local header is rejected with
`CanonicalChain` regardless of the other checks; once the parent is
found, the sealed-hash check runs before the remaining checks, so a hash
mismatch with a known parent yields the `BlockHash` error. -/
theorem C3_parent_lookup_precedes_hash_check (hash_slow : Header → Nat)
    (calc_tx_root : List TransactionSigned → Nat) (v : BlockValidator)
    (block : WorkerBlock) :
    (header_lookup v.chain block.sealed_header.header.parent_hash = none →
      validate_block hash_slow calc_tx_root v block
        = .error (.CanonicalChain block.sealed_header.header.parent_hash)) ∧
    (∀ p, header_lookup v.chain block.sealed_header.header.parent_hash = some p →
      hash_slow block.sealed_header.header ≠ block.sealed_header.hash →
      validate_block hash_slow calc_tx_root v block
        = .error (.BlockHash (hash_slow block.sealed_header.header)
            block.sealed_header.hash)) := by
  constructor
  · intro hnone
    simp [validate_block, hnone]
  · intro p hp hne
    simp only [validate_block, hp]
    simp [validate_block_hash, hne, seqE]

/-- C3 witness: with an empty chain the concrete bad block yields
`CanonicalChain`; with the parent present and a mismatched stored hash
the same checks yield `BlockHash`. -/
theorem C3_parent_lookup_precedes_hash_check_witness :
    validate_block (fun _ => 0) (fun _ => 5) ⟨[], 50, 30⟩
      ⟨[], ⟨{ exParentHeader with parent_hash := 7 }, 1⟩, none⟩
      = .error (.CanonicalChain 7) ∧
    validate_block (fun _ => 0) (fun _ => 5) ⟨exChain, 50, 30⟩
      ⟨[], ⟨{ exParentHeader with parent_hash := 99 }, 1⟩, none⟩
      = .error (.BlockHash 0 1) := by
  constructor
  · exact (C3_parent_lookup_precedes_hash_check (fun _ => 0) (fun _ => 5)
      ⟨[], 50, 30⟩ ⟨[], ⟨{ exParentHeader with parent_hash := 7 }, 1⟩, none⟩).1
      rfl
  · exact (C3_parent_lookup_precedes_hash_check (fun _ => 0) (fun _ => 5)
      ⟨exChain, 50, 30⟩
      ⟨[], ⟨{ exParentHeader with parent_hash := 99 }, 1⟩, none⟩).2
      exParentHeader rfl (by decide)

/-- A concrete peer block off the example parent used by the C2 closed
examples: one transaction of declared gas 3, correct root and hash under
the constant example functions, gas limit equal to the cap 10; the
`gas_used` field is the one value varied. -/
def exGasHeader (gas_used : Nat) : Header :=
  { exParentHeader with
    parent_hash := 99
    transactions_root := 5
    number := 1
    gas_limit := 10
    gas_used := gas_used
    timestamp := 101 }

/-- The C2 example block wrapping `exGasHeader` with one transaction of
declared gas 3 and stored hash 0. -/
def exGasBlock (gas_used : Nat) : WorkerBlock :=
  ⟨[⟨1, 3, 1⟩], ⟨exGasHeader gas_used, 0⟩, none⟩

/-- C2 counterexample: a block that reaches the gas check (non-empty
transactions, gas limit = cap = 10) with `gas_used = 15` different from
the transactions' gas sum 3 is rejected with
`HeaderMaxGasExceedsGasLimit`, not with the `HeaderGasUsedMismatch` the
claim requires: the `gas_used < gas_limit` check intercepts first. -/
theorem C2_gas_used_mismatch_counterexample :
    validate_block (fun _ => 0) (fun _ => 5) ⟨exChain, 50, 10⟩ (exGasBlock 15)
      = .error (.HeaderMaxGasExceedsGasLimit 15 10) ∧
    validate_block (fun _ => 0) (fun _ => 5) ⟨exChain, 50, 10⟩ (exGasBlock 15)
      ≠ .error (.HeaderGasUsedMismatch 3 15) ∧
    (exGasBlock 15).sealed_header.header.gas_limit = 10 ∧
    (exGasBlock 15).sealed_header.header.gas_used = 15 ∧
    sumGas (exGasBlock 15).transactions = 3 ∧
    (exGasBlock 15).transactions ≠ [] := by
  refine ⟨rfl, ?_, rfl, rfl, rfl, by decide⟩
  intro h
  have h2 := Except.error.inj
    ((show Except.error (α := Unit)
        (BlockValidationError.HeaderMaxGasExceedsGasLimit 15 10)
      = validate_block (fun _ => 0) (fun _ => 5) ⟨exChain, 50, 10⟩ (exGasBlock 15)
      from rfl).trans h)
  exact absurd h2 (by decide)

/-- C2 (amended): once a block reaches the gas-used comparison — earlier
checks pass, gas limit equals the cap, `gas_used` is strictly below the
gas limit, transactions non-empty — a `gas_used` differing from the
transactions' declared-gas sum yields `HeaderGasUsedMismatch` with
`expected` = that sum and `received` = `gas_used`, and an equal
`gas_used` passes the gas check. -/
theorem C2_gas_used_mismatch_error (hash_slow : Header → Nat)
    (calc_tx_root : List TransactionSigned → Nat) (v : BlockValidator)
    (block : WorkerBlock) (p : Header)
    (hp : header_lookup v.chain block.sealed_header.header.parent_hash = some p)
    (hhash : hash_slow block.sealed_header.header = block.sealed_header.hash)
    (hroot : calc_tx_root block.transactions
      = block.sealed_header.header.transactions_root)
    (hnum : p.number + 1 = block.sealed_header.header.number)
    (hts : p.timestamp < block.sealed_header.header.timestamp)
    (hlim : block.sealed_header.header.gas_limit = v.max_tx_gas)
    (hlt : block.sealed_header.header.gas_used
      < block.sealed_header.header.gas_limit)
    (hne : block.transactions ≠ []) :
    (block.sealed_header.header.gas_used ≠ sumGas block.transactions →
      validate_block hash_slow calc_tx_root v block
        = .error (.HeaderGasUsedMismatch (sumGas block.transactions)
            block.sealed_header.header.gas_used)) ∧
    (block.sealed_header.header.gas_used = sumGas block.transactions →
      validate_block_gas v.max_tx_gas block.sealed_header.header
        block.transactions = .ok ()) := by
  constructor
  · intro hneq
    rw [validate_block_eq_of_checks hash_slow calc_tx_root v block p hp hhash
      hroot hnum hts]
    rw [validate_block_gas_spec v.max_tx_gas block.sealed_header.header
      block.transactions hlim hlt hne, if_neg hneq]
    rfl
  · intro heq
    rw [validate_block_gas_spec v.max_tx_gas block.sealed_header.header
      block.transactions hlim hlt hne, if_pos heq]

/-- C2 witness: with `gas_used = 5 ≠ 3` the concrete block is rejected
with `HeaderGasUsedMismatch 3 5`; with `gas_used = 3` equal to the sum,
the gas check passes. -/
theorem C2_gas_used_mismatch_error_witness :
    validate_block (fun _ => 0) (fun _ => 5) ⟨exChain, 50, 10⟩ (exGasBlock 5)
      = .error (.HeaderGasUsedMismatch 3 5) ∧
    validate_block_gas 10 (exGasBlock 3).sealed_header.header
      (exGasBlock 3).transactions = .ok () := by
  constructor
  · exact (C2_gas_used_mismatch_error (fun _ => 0) (fun _ => 5)
      ⟨exChain, 50, 10⟩ (exGasBlock 5) exParentHeader rfl rfl rfl rfl
      (by decide) rfl (by decide) (by decide)).1 (by decide)
  · exact (C2_gas_used_mismatch_error (fun _ => 0) (fun _ => 5)
      ⟨exChain, 50, 10⟩ (exGasBlock 3) exParentHeader rfl rfl rfl rfl
      (by decide) rfl (by decide) (by decide)).2 (by decide)

/-- C1 counterexample: building from an empty pool off the example parent
yields an empty `WorkerBlock`, and validating it against the same parent
with the same gas cap (30) and byte cap (50) fails with
`CalculateMaxPossibleGas` — the round-trip does not always hold. -/
theorem C1_round_trip_counterexample :
    validate_block (fun _ => 0) (fun _ => 5) ⟨exChain, 50, 30⟩
      (build_worker_block (fun _ => 0) (fun _ => 5) [] exParentTip 7 30 50 3
        101).worker_block
      = .error .CalculateMaxPossibleGas := by
  rfl

/-- C1 (amended): a `WorkerBlock` built by `build_worker_block` passes
`validate_block` against the same parent and the same gas/byte caps,
provided the parent is resolvable locally, the wall clock is not behind
the parent's timestamp, the built block is non-empty, and its total
declared gas is strictly below the gas cap. -/
theorem C1_round_trip_build_validate (hash_slow : Header → Nat)
    (calc_tx_root : List TransactionSigned → Nat)
    (best_txs : List TransactionSigned) (new_tip : SealedHeader)
    (base_fee gas_limit max_size beneficiary now : Nat)
    (chain : List (Nat × Header))
    (hlook : header_lookup chain new_tip.hash = some new_tip.header)
    (hts : new_tip.header.timestamp ≤ now)
    (hne : (build_worker_block hash_slow calc_tx_root best_txs new_tip base_fee
      gas_limit max_size beneficiary now).worker_block.transactions ≠ [])
    (hlt : sumGas (build_worker_block hash_slow calc_tx_root best_txs new_tip
      base_fee gas_limit max_size beneficiary
      now).worker_block.transactions < gas_limit) :
    validate_block hash_slow calc_tx_root ⟨chain, max_size, gas_limit⟩
      (build_worker_block hash_slow calc_tx_root best_txs new_tip base_fee
        gas_limit max_size beneficiary now).worker_block = .ok () := by
  have htot := build_loop_totals gas_limit max_size best_txs
    BuildLoopState.init rfl rfl rfl
  have hble := build_loop_bytes_le gas_limit max_size best_txs
    BuildLoopState.init (Nat.zero_le _)
  have hts2 : new_tip.header.timestamp <
      (if now = new_tip.header.timestamp
        then new_tip.header.timestamp + 1 else now) := by
    by_cases h : now = new_tip.header.timestamp
    · simp [h]
    · simp only [if_neg h]
      omega
  simp only [build_worker_block, Header.seal_slow] at hne hlt ⊢
  rw [validate_block_eq_of_checks hash_slow calc_tx_root _ _ new_tip.header
    hlook rfl rfl rfl hts2]
  dsimp only
  refine seqE_eq_ok.mpr ⟨(validate_block_gas_spec _ _ _ rfl
      (htot.1.symm ▸ hlt) hne).trans (if_pos htot.1),
    seqE_eq_ok.mpr ⟨validate_block_size_bytes_spec _ _ hne (htot.2.1 ▸ hble),
    seqE_eq_ok.mpr ⟨rfl, rfl⟩⟩⟩

/-- C1 witness: a concrete one-transaction pool (gas 5, size 2) off the
example parent builds a block that the same-capped validator accepts. -/
theorem C1_round_trip_build_validate_witness :
    validate_block (fun _ => 0) (fun _ => 5) ⟨exChain, 50, 30⟩
      (build_worker_block (fun _ => 0) (fun _ => 5) [⟨1, 5, 2⟩] exParentTip 7
        30 50 3 101).worker_block = .ok () :=
  C1_round_trip_build_validate (fun _ => 0) (fun _ => 5) [⟨1, 5, 2⟩]
    exParentTip 7 30 50 3 101 exChain rfl (by decide) (by decide) (by decide)

/-- C4: the execution-state handler does not track the consumed sub-dag
sequence number — after handling a `ConsensusOutput` with sub-dag index
41, `last_executed_sub_dag_index` still returns the stubbed constant 0
(the code's own TODO notes the db query is needed for recovery), so
restart delivery cannot resume from sequence 41. -/
theorem C4_last_executed_sub_dag_index_stub :
    (LatticeExecutionState.handle_consensus_output ⟨()⟩
      ⟨41⟩).last_executed_sub_dag_index = 0 ∧
    (LatticeExecutionState.handle_consensus_output ⟨()⟩
      ⟨41⟩).last_executed_sub_dag_index ≠ 41 ∧
    SimpleExecutionState.last_executed_sub_dag_index = 0 :=
  ⟨rfl, by decide, rfl⟩

lemma score_le_trans : ∀ (a b c : Nat × Nat),
    score_le a b → score_le b c → score_le a c := by
  intro a b c hab hbc
  simp only [score_le, Bool.or_eq_true, decide_eq_true_eq, Bool.and_eq_true,
    beq_iff_eq] at *
  omega

lemma score_le_total : ∀ (a b : Nat × Nat), score_le a b || score_le b a := by
  intro a b
  simp only [score_le, Bool.or_eq_true, decide_eq_true_eq, Bool.and_eq_true,
    beq_iff_eq]
  omega

lemma score_le_antisymm : ∀ (a b : Nat × Nat),
    score_le a b → score_le b a → a = b := by
  intro a b hab hba
  simp only [score_le, Bool.or_eq_true, decide_eq_true_eq, Bool.and_eq_true,
    beq_iff_eq] at hab hba
  have h2 : a.2 = b.2 := by omega
  have h1 : a.1 = b.1 := by omega
  cases a
  cases b
  simp_all

/-- C10: `authorities_by_score_desc` returns the recorded
(authority, score) pairs sorted by score descending with ties broken by
authority identifier descending, and the result is a deterministic
function of the map's contents — two entry lists that are permutations
of each other (as a `HashMap`'s iteration orders are) sort to the same
output. -/
theorem C10_authorities_by_score_desc_deterministic
    (scores scores2 : List (Nat × Nat)) (hperm : scores.Perm scores2) :
    (authorities_by_score_desc scores).Perm scores ∧
    (authorities_by_score_desc scores).Pairwise
      (fun a b => score_le a b = true) ∧
    authorities_by_score_desc scores = authorities_by_score_desc scores2 := by
  haveI : IsAntisymm (Nat × Nat) (fun a b => score_le a b = true) :=
    ⟨fun a b hab hba => score_le_antisymm a b hab hba⟩
  refine ⟨List.mergeSort_perm scores score_le, ?_, ?_⟩
  · exact List.sorted_mergeSort score_le_trans score_le_total scores
  · exact List.eq_of_perm_of_sorted
      (((List.mergeSort_perm scores score_le).trans hperm).trans
        (List.mergeSort_perm scores2 score_le).symm)
      (List.sorted_mergeSort score_le_trans score_le_total scores)
      (List.sorted_mergeSort score_le_trans score_le_total scores2)

/-- C10 witness: the two iteration orders of the map
`(authority 1 ↦ score 5, authority 2 ↦ score 7)` sort to the same list. -/
theorem C10_authorities_by_score_desc_deterministic_witness :
    authorities_by_score_desc [(1, 5), (2, 7)]
      = authorities_by_score_desc [(2, 7), (1, 5)] :=
  (C10_authorities_by_score_desc_deterministic [(1, 5), (2, 7)]
    [(2, 7), (1, 5)] (by decide)).2.2
